import Mathlib

/-!
Shallow embedding of the Vulkan bootstrap program (src/vulkan_methods.c,
src/main.c, src/error_methods.c of andrealmeid/vulkan-triangle-v1).

Opaque native handles (VkInstance, VkSurfaceKHR, swap chains, ...) are
modelled as `Nat` identifiers; enumeration results that the C code reads
through out-parameters and malloc'd arrays become `List`s; a `VkResult`
is a `Nat` with `VK_SUCCESS = 0`.  Process termination through `hardExit`
(error_methods.c:28, `exit(EXIT_FAILURE)`) is modelled by the
`ProcOutcome.fatal` outcome, and observable side effects (log calls,
native create calls) by explicit event lists.
-/

namespace VulkanTriangle

/-! ### Numeric values of the Vulkan enums the program uses (vulkan_core.h) -/

def VK_SUCCESS : Nat := 0

def VK_QUEUE_GRAPHICS_BIT : Nat := 1

def VK_QUEUE_COMPUTE_BIT : Nat := 2

def VK_FORMAT_R8G8B8A8_UNORM : Nat := 37

def VK_FORMAT_B8G8R8A8_UNORM : Nat := 44

def VK_COLOR_SPACE_SRGB_NONLINEAR_KHR : Nat := 0

def VK_IMAGE_USAGE_COLOR_ATTACHMENT_BIT : Nat := 16

def VK_COMPOSITE_ALPHA_OPAQUE_BIT_KHR : Nat := 1

def VK_PRESENT_MODE_FIFO_KHR : Nat := 2

/-! ### Data model -/

/-- One element of the array filled by vkGetPhysicalDeviceQueueFamilyProperties;
only the two fields the program reads. -/
structure VkQueueFamilyProperties where
  queueCount : Nat
  queueFlags : Nat
deriving DecidableEq

/-- A physical device, represented by the queue-family list the driver
would report for it. -/
structure VkPhysicalDevice where
  families : List VkQueueFamilyProperties
deriving DecidableEq

/-- struct DeviceIndices (vulkan_methods.h), as used by getDeviceIndices and
createSwapChain. -/
structure DeviceIndices where
  hasGraphics : Bool
  graphicsIndex : Nat
  hasCompute : Bool
  computeIndex : Nat
  hasPresent : Bool
  presentIndex : Nat
deriving DecidableEq

structure VkExtent2D where
  width : Nat
  height : Nat
deriving DecidableEq

/-- The fields of VkSurfaceCapabilitiesKHR that createSwapChain reads. -/
structure VkSurfaceCapabilitiesKHR where
  minImageCount : Nat
  maxImageCount : Nat
  currentTransform : Nat
deriving DecidableEq

structure VkSurfaceFormatKHR where
  format : Nat
  colorSpace : Nat
deriving DecidableEq

inductive SharingMode where
  | exclusive
  | concurrent
deriving DecidableEq

/-- VkSwapchainCreateInfoKHR as filled by createSwapChain
(vulkan_methods.c:479-511).  The C pair (queueFamilyIndexCount,
pQueueFamilyIndices) is one list here: count 0 with a NULL pointer is the
empty list. -/
structure VkSwapchainCreateInfoKHR where
  surface : Nat
  minImageCount : Nat
  imageFormat : Nat
  imageColorSpace : Nat
  imageExtent : VkExtent2D
  imageArrayLayers : Nat
  imageUsage : Nat
  imageSharingMode : SharingMode
  queueFamilyIndices : List Nat
  preTransform : Nat
  compositeAlpha : Nat
  presentMode : Nat
  clipped : Bool
  oldSwapchain : Nat
deriving DecidableEq

/-- Process outcome of a constructor: a returned value, or termination
through hardExit (error_methods.c:28). -/
inductive ProcOutcome (α : Type) where
  | ok (value : α)
  | fatal
deriving DecidableEq

/-- Observable actions of the embedded constructors: log calls and the
native create calls they issue. -/
inductive VkEvent where
  | logFatalMissingExtension
  | logFatalMissingLayer
  | callCreateInstance
  | logInstanceCreateError
  | logFatalInvalidSwapDevice
  | callCreateSwapchain (info : VkSwapchainCreateInfoKHR)
  | logSwapchainCreateError
  | exitProcess
deriving DecidableEq

/-! ### Capability queries (vulkan_methods.c:188-227) -/

/-- Loop of getDeviceQueueIndex (vulkan_methods.c:198-203).  The guard is
exactly the source's `arr[i].queueCount > 0 && (arr[0].queueFlags & bit)`:
the flags operand is taken from family 0 (`flags0`), not from the family
under scrutiny. -/
def getDeviceQueueIndexLoop (flags0 bit : Nat) :
    List VkQueueFamilyProperties → Nat → Int
  | [], _ => -1
  | f :: rest, i =>
      if f.queueCount > 0 ∧ flags0 &&& bit ≠ 0 then (i : Int)
      else getDeviceQueueIndexLoop flags0 bit rest (i + 1)

/-- getDeviceQueueIndex (vulkan_methods.c:188-206): scans the reported
queue families; returns -1 when the loop finds nothing (an empty family
array makes the loop body unreachable, so `arr[0]` is never read). -/
def getDeviceQueueIndex (families : List VkQueueFamilyProperties)
    (bit : Nat) : Int :=
  match families with
  | [] => -1
  | f0 :: _ => getDeviceQueueIndexLoop f0.queueFlags bit families 0

/-- Modelled from the spec (§4.3 and the C2 claim text): the index of the
first family, in enumeration order, with a nonzero queue count whose OWN
flags satisfy the bitmask.  Kept separate from `getDeviceQueueIndex` so the
two can be compared. -/
def specDeviceQueueIndexLoop (bit : Nat) :
    List VkQueueFamilyProperties → Nat → Int
  | [], _ => -1
  | f :: rest, i =>
      if f.queueCount > 0 ∧ f.queueFlags &&& bit ≠ 0 then (i : Int)
      else specDeviceQueueIndexLoop bit rest (i + 1)

def specDeviceQueueIndex (families : List VkQueueFamilyProperties)
    (bit : Nat) : Int :=
  specDeviceQueueIndexLoop bit families 0

/-- Loop of getPresentQueueIndex (vulkan_methods.c:218-224).  The per-family
result of vkGetPhysicalDeviceSurfaceSupportKHR is the `surfaceSupport`
list, indexed by queue-family index. -/
def getPresentQueueIndexLoop : List Bool → Nat → Int
  | [], _ => -1
  | s :: rest, i =>
      if s then (i : Int) else getPresentQueueIndexLoop rest (i + 1)

/-- getPresentQueueIndex (vulkan_methods.c:208-227). -/
def getPresentQueueIndex (surfaceSupport : List Bool) : Int :=
  getPresentQueueIndexLoop surfaceSupport 0

/-! ### Physical device selection (vulkan_methods.c:152-184) -/

/-- The loop's suitability test (vulkan_methods.c:170-172):
`getDeviceQueueIndex(arr[i], VK_QUEUE_GRAPHICS_BIT | VK_QUEUE_COMPUTE_BIT) != -1`. -/
def deviceSuitable (d : VkPhysicalDevice) : Bool :=
  getDeviceQueueIndex d.families
    (VK_QUEUE_GRAPHICS_BIT ||| VK_QUEUE_COMPUTE_BIT) != -1

/-- Body of the selection loop: a suitable device overwrites the current
selection; there is no break. -/
def selectStep (selected : Option VkPhysicalDevice)
    (d : VkPhysicalDevice) : Option VkPhysicalDevice :=
  if deviceSuitable d then some d else selected

/-- createPhysicalDevice (vulkan_methods.c:152-184) restricted to its
selection logic: `none` models the VK_NULL_HANDLE case in which the
function calls hardExit (lines 177-180). -/
def createPhysicalDevice (devices : List VkPhysicalDevice) :
    Option VkPhysicalDevice :=
  devices.foldl selectStep none

/-! ### Swap-chain construction (vulkan_methods.c:467-521) -/

/-- The VkSwapchainCreateInfoKHR that createSwapChain fills in
(vulkan_methods.c:479-511), field by field in source order.  minImageCount,
imageFormat and imageColorSpace are the source's literal constants; only
the sharing-mode triple (lines 494-504) depends on the device indices. -/
def buildSwapchainCreateInfo (oldSwapChain surface : Nat)
    (extent : VkExtent2D) (capabilities : VkSurfaceCapabilitiesKHR)
    (deviceIndices : DeviceIndices) : VkSwapchainCreateInfoKHR :=
  { surface := surface
    minImageCount := 2
    imageFormat := VK_FORMAT_B8G8R8A8_UNORM
    imageColorSpace := VK_COLOR_SPACE_SRGB_NONLINEAR_KHR
    imageExtent := extent
    imageArrayLayers := 1
    imageUsage := VK_IMAGE_USAGE_COLOR_ATTACHMENT_BIT
    imageSharingMode :=
      if deviceIndices.graphicsIndex ≠ deviceIndices.presentIndex then
        SharingMode.concurrent
      else
        SharingMode.exclusive
    queueFamilyIndices :=
      if deviceIndices.graphicsIndex ≠ deviceIndices.presentIndex then
        [deviceIndices.graphicsIndex, deviceIndices.presentIndex]
      else
        []
    preTransform := capabilities.currentTransform
    compositeAlpha := VK_COMPOSITE_ALPHA_OPAQUE_BIT_KHR
    presentMode := VK_PRESENT_MODE_FIFO_KHR
    clipped := true
    oldSwapchain := oldSwapChain }

/-- Modelled from the spec (§4.1 Policy): the first available format equal
to the preferred (format, color space) pair if present, else the first
supported format.  The source has no such selection; this definition
exists only to compare the spec's policy with the source's constants. -/
def specChooseSurfaceFormat (preferred : VkSurfaceFormatKHR)
    (available : List VkSurfaceFormatKHR) : Option VkSurfaceFormatKHR :=
  match available.find? (fun f => decide (f = preferred)) with
  | some f => some f
  | none => available.head?

/-- createSwapChain (vulkan_methods.c:467-521) as an event trace plus
outcome.  `res` is the VkResult of the vkCreateSwapchainKHR call and
`handle` the swap chain it would write.  The invalid-indices guard
(lines 490-492) only logs: the source does not call hardExit there, so
execution falls through to the native create call. -/
def createSwapChainRun (oldSwapChain surface : Nat) (extent : VkExtent2D)
    (capabilities : VkSurfaceCapabilitiesKHR)
    (deviceIndices : DeviceIndices) (res handle : Nat) :
    List VkEvent × ProcOutcome Nat :=
  let info := buildSwapchainCreateInfo oldSwapChain surface extent
    capabilities deviceIndices
  let guardEvents : List VkEvent :=
    if deviceIndices.hasGraphics = false ∨ deviceIndices.hasPresent = false
    then [VkEvent.logFatalInvalidSwapDevice]
    else []
  if res ≠ VK_SUCCESS then
    (guardEvents ++ [VkEvent.callCreateSwapchain info,
      VkEvent.logSwapchainCreateError, VkEvent.exitProcess],
      ProcOutcome.fatal)
  else
    (guardEvents ++ [VkEvent.callCreateSwapchain info],
      ProcOutcome.ok handle)

/-- Recognizes the native swap-chain create call in a trace. -/
def isSwapchainCreateCall : VkEvent → Bool
  | VkEvent.callCreateSwapchain _ => true
  | _ => false

/-! ### Instance construction (vulkan_methods.c:48-102) -/

/-- createInstance (vulkan_methods.c:48-102) as an event trace plus
outcome.  `extensionsMatch` and `layersMatch` stand for the two
`matchnum == enabledCount` comparisons (lines 62 and 71; the counting
itself lives in util_methods.c, outside this repository slice), and `res`
is the VkResult of vkCreateInstance. -/
def createInstanceRun (extensionsMatch layersMatch : Bool)
    (res inst : Nat) : List VkEvent × ProcOutcome Nat :=
  if extensionsMatch = false then
    ([VkEvent.logFatalMissingExtension, VkEvent.exitProcess],
      ProcOutcome.fatal)
  else if layersMatch = false then
    ([VkEvent.logFatalMissingLayer, VkEvent.exitProcess],
      ProcOutcome.fatal)
  else if res ≠ VK_SUCCESS then
    ([VkEvent.callCreateInstance, VkEvent.logInstanceCreateError,
      VkEvent.exitProcess], ProcOutcome.fatal)
  else
    ([VkEvent.callCreateInstance], ProcOutcome.ok inst)

/-! ### The Frame Driver loop and the cleanup sequence (main.c) -/

inductive LoopAction where
  | pollEvents
  | drawFrame
deriving DecidableEq

/-- Body of the main window loop (main.c:170-172): a single
glfwPollEvents() call and nothing else. -/
def mainLoopBody : List LoopAction := [LoopAction.pollEvents]

/-- Trace of `n` iterations of the main window loop. -/
def mainLoopTrace : Nat → List LoopAction
  | 0 => []
  | n + 1 => mainLoopBody ++ mainLoopTrace n

/-- The teardown calls available to main.  `destroySurface` names the
vkDestroySurfaceKHR step the spec expects; it is needed to state claims
about the sequence even though main never performs it. -/
inductive CleanupAction where
  | deleteSemaphoreRenderFinished
  | deleteSemaphoreImageAvailable
  | deleteGraphicsCommandBuffers
  | deleteCommandPool
  | deleteSwapChainFramebuffers
  | deletePipeline
  | deletePipelineLayout
  | deleteRenderPass
  | deleteSwapChainImageViews
  | deleteSwapChainImages
  | deleteSwapChain
  | deleteDevice
  | deleteDebugCallback
  | deleteInstance
  | destroySurface
  | freeExtensionNames
  | terminateGlfw
deriving DecidableEq

/-- The cleanup sequence of main (main.c:175-193), in source order. -/
def mainCleanupSequence : List CleanupAction :=
  [CleanupAction.deleteSemaphoreRenderFinished,
   CleanupAction.deleteSemaphoreImageAvailable,
   CleanupAction.deleteGraphicsCommandBuffers,
   CleanupAction.deleteCommandPool,
   CleanupAction.deleteSwapChainFramebuffers,
   CleanupAction.deletePipeline,
   CleanupAction.deletePipelineLayout,
   CleanupAction.deleteRenderPass,
   CleanupAction.deleteSwapChainImageViews,
   CleanupAction.deleteSwapChainImages,
   CleanupAction.deleteSwapChain,
   CleanupAction.deleteDevice,
   CleanupAction.deleteDebugCallback,
   CleanupAction.deleteInstance,
   CleanupAction.freeExtensionNames,
   CleanupAction.terminateGlfw]

/-! ### Theorems -/

/-- Claim C1: for every device-indices pair, differing graphics and
present indices make createSwapChain request concurrent sharing with
exactly those two family indices listed, and equal indices make it
request exclusive sharing with no family indices listed
(vulkan_methods.c:494-504). -/
theorem createSwapChain_sharing_mode (oldSC surf : Nat) (e : VkExtent2D)
    (c : VkSurfaceCapabilitiesKHR) (di : DeviceIndices) :
    ((buildSwapchainCreateInfo oldSC surf e c di).imageSharingMode,
      (buildSwapchainCreateInfo oldSC surf e c di).queueFamilyIndices) =
    if di.graphicsIndex ≠ di.presentIndex then
      (SharingMode.concurrent, [di.graphicsIndex, di.presentIndex])
    else
      (SharingMode.exclusive, ([] : List Nat)) := by
  unfold buildSwapchainCreateInfo
  by_cases h : di.graphicsIndex = di.presentIndex <;> simp [h]

/-- Claim C2: the claim requires the flags tested for candidate index i to
be those of family i; the source instead tests family 0's flags on every
iteration (vulkan_methods.c:199).  On a device whose family 0 lacks the
graphics bit while family 1 has it, getDeviceQueueIndex answers -1 even
though the spec-faithful scan answers 1. -/
theorem getDeviceQueueIndex_tests_family_zero_flags :
    getDeviceQueueIndex [⟨1, 0⟩, ⟨1, VK_QUEUE_GRAPHICS_BIT⟩]
      VK_QUEUE_GRAPHICS_BIT = -1 ∧
    specDeviceQueueIndex [⟨1, 0⟩, ⟨1, VK_QUEUE_GRAPHICS_BIT⟩]
      VK_QUEUE_GRAPHICS_BIT = 1 := by
  decide

/-- Claim C3, counterexample: with reported capabilities min = 3, max = 4
the source still requests 2 images (vulkan_methods.c:483), which is below
the reported minimum and is not min+1 clamped to max. -/
theorem createSwapChain_image_count_ignores_capabilities :
    (buildSwapchainCreateInfo 0 1 ⟨640, 480⟩ ⟨3, 4, 0⟩
        ⟨true, 0, true, 0, true, 0⟩).minImageCount <
      (⟨3, 4, 0⟩ : VkSurfaceCapabilitiesKHR).minImageCount ∧
    (buildSwapchainCreateInfo 0 1 ⟨640, 480⟩ ⟨3, 4, 0⟩
        ⟨true, 0, true, 0, true, 0⟩).minImageCount ≠
      min ((⟨3, 4, 0⟩ : VkSurfaceCapabilitiesKHR).minImageCount + 1)
        (⟨3, 4, 0⟩ : VkSurfaceCapabilitiesKHR).maxImageCount := by
  decide

/-- Claim C3, amended: swap-chain construction requests the constant image
count 2, with no dependence on the capabilities-reported minimum or
maximum (vulkan_methods.c:483). -/
theorem createSwapChain_image_count_constant_two (oldSC surf : Nat)
    (e : VkExtent2D) (c : VkSurfaceCapabilitiesKHR) (di : DeviceIndices) :
    (buildSwapchainCreateInfo oldSC surf e c di).minImageCount = 2 := rfl

/-- Claim C4: with an unresolved graphics family the run logs the FATAL
message yet still issues the vkCreateSwapchainKHR call and, when that call
succeeds, returns the swap chain instead of terminating — the guard at
vulkan_methods.c:490-492 lacks the hardExit() that every other FATAL log
site in the file performs. -/
theorem createSwapChain_invalid_indices_still_creates :
    VkEvent.logFatalInvalidSwapDevice ∈
      (createSwapChainRun 0 1 ⟨640, 480⟩ ⟨2, 3, 0⟩
        ⟨false, 0, true, 0, true, 0⟩ 0 7).1 ∧
    (createSwapChainRun 0 1 ⟨640, 480⟩ ⟨2, 3, 0⟩
        ⟨false, 0, true, 0, true, 0⟩ 0 7).1.any isSwapchainCreateCall = true ∧
    (createSwapChainRun 0 1 ⟨640, 480⟩ ⟨2, 3, 0⟩
        ⟨false, 0, true, 0, true, 0⟩ 0 7).2 = ProcOutcome.ok 7 := by
  decide

/-- Claim C5: when the native create call returns a non-success result,
createInstance (vulkan_methods.c:94-101) and createSwapChain
(vulkan_methods.c:513-518) log the error and terminate the process; the
outcome is fatal, never a returned object. -/
theorem native_create_failure_fatal (res inst oldSC surf handle : Nat)
    (e : VkExtent2D) (c : VkSurfaceCapabilitiesKHR) (di : DeviceIndices)
    (h : res ≠ VK_SUCCESS) :
    (createInstanceRun true true res inst).2 = ProcOutcome.fatal ∧
    VkEvent.logInstanceCreateError ∈ (createInstanceRun true true res inst).1 ∧
    (createSwapChainRun oldSC surf e c di res handle).2 = ProcOutcome.fatal ∧
    VkEvent.logSwapchainCreateError ∈
      (createSwapChainRun oldSC surf e c di res handle).1 := by
  unfold createInstanceRun createSwapChainRun
  simp [h]

theorem native_create_failure_fatal_witness :
    (createInstanceRun true true 1 5).2 = ProcOutcome.fatal ∧
    VkEvent.logInstanceCreateError ∈ (createInstanceRun true true 1 5).1 ∧
    (createSwapChainRun 0 1 ⟨640, 480⟩ ⟨2, 3, 0⟩ ⟨true, 0, true, 0, true, 0⟩
        1 7).2 = ProcOutcome.fatal ∧
    VkEvent.logSwapchainCreateError ∈
      (createSwapChainRun 0 1 ⟨640, 480⟩ ⟨2, 3, 0⟩ ⟨true, 0, true, 0, true, 0⟩
        1 7).1 :=
  native_create_failure_fatal 1 5 0 1 7 ⟨640, 480⟩ ⟨2, 3, 0⟩
    ⟨true, 0, true, 0, true, 0⟩ (by decide)

/-- Claim C6, counterexample: on a device whose only supported surface
format is (R8G8B8A8_UNORM, SRGB_NONLINEAR), the spec's policy picks that
first supported format, but the source's construction still uses the
hardcoded B8G8R8A8_UNORM (vulkan_methods.c:484-485) — the chosen pair does
not depend on the device's reported format list. -/
theorem createSwapChain_format_ignores_device_formats :
    specChooseSurfaceFormat
        ⟨VK_FORMAT_B8G8R8A8_UNORM, VK_COLOR_SPACE_SRGB_NONLINEAR_KHR⟩
        [⟨VK_FORMAT_R8G8B8A8_UNORM, VK_COLOR_SPACE_SRGB_NONLINEAR_KHR⟩] =
      some ⟨VK_FORMAT_R8G8B8A8_UNORM, VK_COLOR_SPACE_SRGB_NONLINEAR_KHR⟩ ∧
    (buildSwapchainCreateInfo 0 1 ⟨640, 480⟩ ⟨2, 3, 0⟩
        ⟨true, 0, true, 0, true, 0⟩).imageFormat = VK_FORMAT_B8G8R8A8_UNORM ∧
    VK_FORMAT_B8G8R8A8_UNORM ≠ VK_FORMAT_R8G8B8A8_UNORM := by
  decide

/-- Claim C6, amended: swap-chain construction always uses the fixed pair
(VK_FORMAT_B8G8R8A8_UNORM, VK_COLOR_SPACE_SRGB_NONLINEAR_KHR), with no
dependence on the device's reported format list (vulkan_methods.c:484-485,
marked TODO in the source). -/
theorem createSwapChain_format_hardcoded (oldSC surf : Nat) (e : VkExtent2D)
    (c : VkSurfaceCapabilitiesKHR) (di : DeviceIndices) :
    (buildSwapchainCreateInfo oldSC surf e c di).imageFormat =
      VK_FORMAT_B8G8R8A8_UNORM ∧
    (buildSwapchainCreateInfo oldSC surf e c di).imageColorSpace =
      VK_COLOR_SPACE_SRGB_NONLINEAR_KHR :=
  ⟨rfl, rfl⟩

/-- When family 0's flags miss the bitmask, the loop guard of
getDeviceQueueIndex is false on every iteration. -/
theorem getDeviceQueueIndexLoop_flags_zero (flags0 bit : Nat)
    (h : flags0 &&& bit = 0) (l : List VkQueueFamilyProperties) :
    ∀ i, getDeviceQueueIndexLoop flags0 bit l i = -1 := by
  induction l with
  | nil => intro i; rfl
  | cons f rest ih =>
      intro i
      simp [getDeviceQueueIndexLoop, h, ih (i + 1)]

/-- When no family supports the surface, the loop of getPresentQueueIndex
never returns early. -/
theorem getPresentQueueIndexLoop_no_support (l : List Bool)
    (h : ∀ s ∈ l, s = false) : ∀ i, getPresentQueueIndexLoop l i = -1 := by
  induction l with
  | nil => intro i; rfl
  | cons s rest ih =>
      intro i
      have hs : s = false := h s (by simp)
      have hr : ∀ x ∈ rest, x = false := fun x hx => h x (by simp [hx])
      simp [getPresentQueueIndexLoop, hs, ih hr (i + 1)]

/-- Claim C7: when no queue family's flags satisfy the required bitmask,
getDeviceQueueIndex returns -1, and when no family reports surface
support, getPresentQueueIndex returns -1 (vulkan_methods.c:205,226) —
the distinguished not-found value, with no termination involved. -/
theorem queue_queries_return_not_found
    (families : List VkQueueFamilyProperties) (bit : Nat)
    (surfaceSupport : List Bool)
    (hflags : ∀ f ∈ families, f.queueFlags &&& bit = 0)
    (hsupp : ∀ s ∈ surfaceSupport, s = false) :
    getDeviceQueueIndex families bit = -1 ∧
    getPresentQueueIndex surfaceSupport = -1 := by
  constructor
  · cases families with
    | nil => rfl
    | cons f0 rest =>
        have h0 : f0.queueFlags &&& bit = 0 := hflags f0 (by simp)
        exact getDeviceQueueIndexLoop_flags_zero f0.queueFlags bit h0
          (f0 :: rest) 0
  · exact getPresentQueueIndexLoop_no_support surfaceSupport hsupp 0

theorem queue_queries_return_not_found_witness :
    getDeviceQueueIndex [⟨1, VK_QUEUE_COMPUTE_BIT⟩] VK_QUEUE_GRAPHICS_BIT
      = -1 ∧
    getPresentQueueIndex [false, false] = -1 :=
  queue_queries_return_not_found [⟨1, VK_QUEUE_COMPUTE_BIT⟩]
    VK_QUEUE_GRAPHICS_BIT [false, false] (by decide) (by decide)

/-- Claim C8, counterexample: the trace of one iteration of the main
window loop contains no draw invocation at all (main.c:170-172), so the
claimed "exactly once per iteration" fails already at the first
iteration. -/
theorem mainLoop_no_draw_call :
    ¬ (mainLoopTrace 1).count LoopAction.drawFrame = 1 := by
  decide

/-- Claim C8, amended: every iteration of the main window loop performs
exactly one glfwPollEvents() call and no draw/advance-frame invocation:
after n iterations the trace holds n poll actions and zero draw actions
(main.c:170-172). -/
theorem mainLoop_polls_only (n : Nat) :
    (mainLoopTrace n).count LoopAction.drawFrame = 0 ∧
    (mainLoopTrace n).count LoopAction.pollEvents = n := by
  induction n with
  | zero => decide
  | succ k ih =>
      constructor
      · simp [mainLoopTrace, mainLoopBody, List.count_cons, ih.1]
      · simp [mainLoopTrace, mainLoopBody, List.count_cons, ih.2]

/-- Claim C9: the cleanup sequence of main (main.c:175-193) never destroys
the surface at all — in particular not before the instance, which the
sequence does destroy. -/
theorem cleanup_never_destroys_surface :
    CleanupAction.destroySurface ∉ mainCleanupSequence ∧
    CleanupAction.deleteInstance ∈ mainCleanupSequence := by
  decide

/-- A run of the selection loop over devices none of which pass the
suitability test leaves the selection unchanged. -/
theorem foldl_selectStep_const (l : List VkPhysicalDevice)
    (h : ∀ e ∈ l, deviceSuitable e = false) :
    ∀ acc, l.foldl selectStep acc = acc := by
  induction l with
  | nil => intro acc; rfl
  | cons d rest ih =>
      intro acc
      have hd : deviceSuitable d = false := h d (by simp)
      have hr : ∀ e ∈ rest, deviceSuitable e = false :=
        fun e he => h e (by simp [he])
      simp [List.foldl, selectStep, hd, ih hr]

/-- Claim C10: when more than one enumerated device passes the loop's
graphics-and-compute suitability test, createPhysicalDevice returns the
last passing device in enumeration order: the loop overwrites its choice
on every suitable device and never breaks (vulkan_methods.c:168-175). -/
theorem createPhysicalDevice_selects_last_suitable
    (before after : List VkPhysicalDevice) (d : VkPhysicalDevice)
    (hmulti : ∃ e ∈ before, deviceSuitable e = true)
    (hd : deviceSuitable d = true)
    (hafter : ∀ e ∈ after, deviceSuitable e = false) :
    createPhysicalDevice (before ++ d :: after) = some d := by
  unfold createPhysicalDevice
  rw [List.foldl_append]
  simp [List.foldl, selectStep, hd, foldl_selectStep_const after hafter]

theorem createPhysicalDevice_selects_last_suitable_witness :
    createPhysicalDevice
      [⟨[⟨1, 3⟩]⟩, ⟨[⟨2, 3⟩]⟩, ⟨[⟨1, 0⟩]⟩] = some ⟨[⟨2, 3⟩]⟩ :=
  createPhysicalDevice_selects_last_suitable [⟨[⟨1, 3⟩]⟩] [⟨[⟨1, 0⟩]⟩]
    ⟨[⟨2, 3⟩]⟩ ⟨⟨[⟨1, 3⟩]⟩, by simp, by decide⟩ (by decide) (by decide)

end VulkanTriangle
